import Mathlib

/-!
Verification of the raw PDF certificate generator in
`src/app/api/generate-certificate/route.ts`.

The encoder builds a JavaScript string and converts it to a buffer with
UTF-8 encoding (`Buffer.from(pdf, 'utf-8')`); byte offsets are measured
with `Buffer.byteLength(pdf, 'utf-8')`.  We model JavaScript strings as
Lean `String` (sequences of Unicode scalar values) and the produced
buffer as a `List Nat` of UTF-8 bytes.
-/

namespace CertBot

/-- UTF-8 encoding of a single Unicode scalar value, as byte values. -/
def utf8Char (c : Char) : List Nat :=
  let v := c.toNat
  if v < 128 then [v]
  else if v < 2048 then [192 + v / 64, 128 + v % 64]
  else if v < 65536 then [224 + v / 4096, 128 + v / 64 % 64, 128 + v % 64]
  else [240 + v / 262144, 128 + v / 4096 % 64, 128 + v / 64 % 64, 128 + v % 64]

/-- UTF-8 byte sequence of a string; models `Buffer.from(s, 'utf-8')`. -/
def utf8Bytes (s : String) : List Nat :=
  s.data.flatMap utf8Char

/-- UTF-8 byte length of a string; models `Buffer.byteLength(s, 'utf-8')`. -/
def byteLen (s : String) : Nat :=
  (utf8Bytes s).length

/-- Global single-character replacement, modelling
`text.replace(/<c>/g, r)` for a one-character pattern `c`. -/
def replaceChar (c : Char) (r : List Char) (s : String) : String :=
  String.mk (s.data.flatMap (fun a => if a = c then r else [a]))

/-- Source `escapeText` (route.ts line 6): replaces `\` by `\\`, then
`(` by `\(`, then `)` by `\)`. -/
def escapeText (text : String) : String :=
  replaceChar ')' ['\\', ')']
    (replaceChar '(' ['\\', '(']
      (replaceChar '\\' ['\\', '\\'] text))

/-- One-character view of the escaping: each special character maps to
its two-character escape, all others are kept. -/
def escChar (a : Char) : List Char :=
  if a = '\\' then ['\\', '\\']
  else if a = '(' then ['\\', '(']
  else if a = ')' then ['\\', ')']
  else [a]

/-- Reversal of the escaping rule (spec section 4): a backslash takes the
following character literally; all other characters are copied. -/
def unescChars : List Char → List Char
  | [] => []
  | [a] => if a = '\\' then [] else [a]
  | a :: b :: rest =>
    if a = '\\' then b :: unescChars rest
    else a :: unescChars (b :: rest)

/-- Reversal of `escapeText` per the spec's escaping rule. -/
def unescapeText (s : String) : String :=
  String.mk (unescChars s.data)

/-! ## The certificate request and page geometry (route.ts lines 10-21) -/

/-- Input of `generateCertificatePDF`: four free-form string fields. -/
structure CertificateRequest where
  name : String
  course : String
  date : String
  certificate_id : String

/-- Page width in points: Letter landscape. -/
def pageWidth : Nat := 792

/-- Page height in points: Letter landscape. -/
def pageHeight : Nat := 612

/-- Horizontal page center, `pageWidth / 2`. -/
def centerX : Nat := pageWidth / 2

/-!
All numbers interpolated into the content stream are JavaScript numbers
of the form `centerX - (len * w) / 2` where `w` is one of the per-line
width constants 9, 7, 6, 14, 11, 4.5, 5.  Every such value is an exact
multiple of 1/4, so we represent it exactly as an integer count of
quarter points and render it the way JavaScript stringifies such a
number: integer part, then ".25" / ".5" / ".75" when fractional.
-/

/-- Decimal rendering of a quarter-point value `q/4`, matching the
JavaScript number-to-string conversion on these exact dyadic values. -/
def fmtQ (q : Int) : String :=
  (if q < 0 then "-" else "") ++ toString (q.natAbs / 4) ++
    (match q.natAbs % 4 with
     | 0 => ""
     | 1 => ".25"
     | 2 => ".5"
     | _ => ".75")

/-- The `Td` line of a horizontally centered text: models the template
`` `${centerX - width / 2} ${y} Td` `` where `width = len * w` and `w4`
is the per-character width constant scaled by 4 (so `4.5` becomes 18). -/
def centerTd (len : Nat) (w4 : Nat) (y : Nat) : String :=
  fmtQ (4 * (centerX : Int) - ((len : Int) * w4) / 2) ++ " " ++ toString y ++ " Td"

/-! ## Content stream (route.ts lines 24-183) -/

/-- Fixed header label. -/
def certLabel : String := "CERTIFICATE"

/-- Fixed subheader label. -/
def ofLabel : String := "OF COMPLETION"

/-- Fixed certify line. -/
def certifyText : String := "This is to certify that"

/-- Fixed completion line. -/
def completedText : String := "has successfully completed the course"

/-- Fixed branding line. -/
def brandLabel : String := "Powered by CertifyFlow"

/-- Date line `Completed on: ${date}`. -/
def dateLabel (date : String) : String := "Completed on: " ++ date

/-- Certificate-ID line `Certificate ID: ${certificate_id}`. -/
def idLabel (certificate_id : String) : String :=
  "Certificate ID: " ++ certificate_id

/-- The `contentLines` array pushed in route.ts lines 27-181, in order. -/
def contentLines : CertificateRequest → List String
  | ⟨name, course, date, certificate_id⟩ =>
    [ "0.15 0.15 0.15 RG",
      "3 w",
      "30 30 " ++ toString (pageWidth - 60) ++ " " ++ toString (pageHeight - 60) ++ " re S",
      "0.4 0.4 0.4 RG",
      "1.5 w",
      "42 42 " ++ toString (pageWidth - 84) ++ " " ++ toString (pageHeight - 84) ++ " re S",
      "0.2 0.2 0.2 RG",
      "2 w",
      "50 552 m 50 562 l S",
      "50 562 m 60 562 l S",
      toString (pageWidth - 50) ++ " 552 m " ++ toString (pageWidth - 50) ++ " 562 l S",
      toString (pageWidth - 50) ++ " 562 m " ++ toString (pageWidth - 60) ++ " 562 l S",
      "50 60 m 50 50 l S",
      "50 50 m 60 50 l S",
      toString (pageWidth - 50) ++ " 60 m " ++ toString (pageWidth - 50) ++ " 50 l S",
      toString (pageWidth - 50) ++ " 50 m " ++ toString (pageWidth - 60) ++ " 50 l S",
      "0.3 0.3 0.3 RG",
      "1 w",
      toString (centerX - 180) ++ " 520 m " ++ toString (centerX + 180) ++ " 520 l S",
      "BT",
      "/F2 14 Tf",
      "0.35 0.35 0.35 rg",
      centerTd certLabel.length 36 535,
      "(" ++ escapeText certLabel ++ ") Tj",
      "ET",
      "BT",
      "/F2 11 Tf",
      "0.45 0.45 0.45 rg",
      centerTd ofLabel.length 28 505,
      "(" ++ escapeText ofLabel ++ ") Tj",
      "ET",
      "BT",
      "/F1 12 Tf",
      "0.4 0.4 0.4 rg",
      centerTd certifyText.length 24 455,
      "(" ++ escapeText certifyText ++ ") Tj",
      "ET",
      "BT",
      "/F2 28 Tf",
      "0.1 0.1 0.1 rg",
      centerTd name.length 56 410,
      "(" ++ escapeText name ++ ") Tj",
      "ET",
      "0.3 0.3 0.3 RG",
      "0.8 w",
      toString (centerX - 140) ++ " 400 m " ++ toString (centerX + 140) ++ " 400 l S",
      "BT",
      "/F1 12 Tf",
      "0.4 0.4 0.4 rg",
      centerTd completedText.length 24 370,
      "(" ++ escapeText completedText ++ ") Tj",
      "ET",
      "BT",
      "/F2 22 Tf",
      "0.15 0.15 0.15 rg",
      centerTd course.length 44 330,
      "(" ++ escapeText course ++ ") Tj",
      "ET",
      "0.5 0.5 0.5 RG",
      "0.5 w",
      toString (centerX - 100) ++ " 320 m " ++ toString (centerX + 100) ++ " 320 l S",
      "BT",
      "/F1 11 Tf",
      "0.4 0.4 0.4 rg",
      centerTd (dateLabel date).length 24 280,
      "(" ++ escapeText (dateLabel date) ++ ") Tj",
      "ET",
      "0.3 0.3 0.3 RG",
      "0.8 w",
      "160 160 m 320 160 l S",
      "BT",
      "/F1 9 Tf",
      "0.45 0.45 0.45 rg",
      "200 145 Td",
      "(Authorized Signature) Tj",
      "ET",
      "0.3 0.3 0.3 RG",
      "0.8 w",
      toString (pageWidth - 320) ++ " 160 m " ++ toString (pageWidth - 160) ++ " 160 l S",
      "BT",
      "/F1 9 Tf",
      "0.45 0.45 0.45 rg",
      toString (pageWidth - 280) ++ " 145 Td",
      "(Program Director) Tj",
      "ET",
      "BT",
      "/F3 8 Tf",
      "0.55 0.55 0.55 rg",
      centerTd (idLabel certificate_id).length 18 80,
      "(" ++ escapeText (idLabel certificate_id) ++ ") Tj",
      "ET",
      "BT",
      "/F2 8 Tf",
      "0.65 0.65 0.65 rg",
      centerTd brandLabel.length 20 62,
      "(" ++ escapeText brandLabel ++ ") Tj",
      "ET",
      "0.3 0.3 0.3 RG",
      "1 w",
      toString (centerX - 180) ++ " 95 m " ++ toString (centerX + 180) ++ " 95 l S" ]

/-- `contentLines.join('\n')` (route.ts line 183). -/
def contentStream (d : CertificateRequest) : String :=
  String.intercalate "\n" (contentLines d)

/-! ## PDF objects (route.ts lines 186-216); `objNum` counts 1..7 -/

/-- Object 1: catalog. -/
def obj1 : String :=
  "1 0 obj\n<< /Type /Catalog /Pages 2 0 R >>\nendobj"

/-- Object 2: pages. -/
def obj2 : String :=
  "2 0 obj\n<< /Type /Pages /Kids [3 0 R] /Count 1 >>\nendobj"

/-- Object 3: page. -/
def obj3 : String :=
  "3 0 obj\n<< /Type /Page /Parent 2 0 R /MediaBox [0 0 " ++ toString pageWidth
    ++ " " ++ toString pageHeight
    ++ "] /Contents 4 0 R /Resources << /Font << /F1 5 0 R /F2 6 0 R /F3 7 0 R >> >> >>\nendobj"

/-- Object 4: content stream, `/Length` being the UTF-8 byte length of
the stream data (`Buffer.from(contentStream, 'utf-8').length`). -/
def obj4 (d : CertificateRequest) : String :=
  "4 0 obj\n<< /Length " ++ toString (byteLen (contentStream d))
    ++ " >>\nstream\n" ++ contentStream d ++ "\nendstream\nendobj"

/-- Object 5: font F1 (Helvetica). -/
def obj5 : String :=
  "5 0 obj\n<< /Type /Font /Subtype /Type1 /BaseFont /Helvetica /Encoding /WinAnsiEncoding >>\nendobj"

/-- Object 6: font F2 (Helvetica-Bold). -/
def obj6 : String :=
  "6 0 obj\n<< /Type /Font /Subtype /Type1 /BaseFont /Helvetica-Bold /Encoding /WinAnsiEncoding >>\nendobj"

/-- Object 7: font F3 (Courier). -/
def obj7 : String :=
  "7 0 obj\n<< /Type /Font /Subtype /Type1 /BaseFont /Courier /Encoding /WinAnsiEncoding >>\nendobj"

/-- The `objects` array in emission order. -/
def objects (d : CertificateRequest) : List String :=
  [obj1, obj2, obj3, obj4 d, obj5, obj6, obj7]

/-- Final value of the `objNum` counter after the seven objects. -/
def objNum : Nat := 8

/-! ## Final assembly (route.ts lines 219-235) -/

/-- The fixed first line of the file. -/
def header : String := "%PDF-1.4\n"

/-- The object-emission loop: each object followed by a newline. -/
def emitObjects : List String → String
  | [] => ""
  | o :: rest => (o ++ "\n") ++ emitObjects rest

/-- Everything written before the xref section. -/
def bodyString (d : CertificateRequest) : String :=
  header ++ emitObjects (objects d)

/-- The recorded byte offsets: before appending each object the loop
pushes `Buffer.byteLength(pdf, 'utf-8')`. -/
def offsetsAux (acc : Nat) : List String → List Nat
  | [] => []
  | o :: rest => acc :: offsetsAux (acc + byteLen (o ++ "\n")) rest

/-- The `offsets` array recorded by the loop. -/
def offsets (d : CertificateRequest) : List Nat :=
  offsetsAux (byteLen header) (objects d)

/-- The recorded xref-section offset. -/
def xrefOffset (d : CertificateRequest) : Nat :=
  byteLen (bodyString d)

/-- `String(offset).padStart(10, '0')`. -/
def pad10 (n : Nat) : String :=
  let s := toString n
  if s.length < 10 then String.mk (List.replicate (10 - s.length) '0') ++ s
  else s

/-- The xref-entry loop: one line per recorded offset. -/
def xrefEntries : List Nat → String
  | [] => ""
  | o :: rest => (pad10 o ++ " 00000 n \n") ++ xrefEntries rest

/-- The xref section appended after the objects. -/
def xrefSection (d : CertificateRequest) : String :=
  "xref\n0 " ++ toString objNum ++ "\n0000000000 65535 f \n"
    ++ xrefEntries (offsets d)

/-- The trailer, startxref and end-of-file marker. -/
def trailerSection (d : CertificateRequest) : String :=
  "trailer\n<< /Size " ++ toString objNum ++ " /Root 1 0 R >>\nstartxref\n"
    ++ toString (xrefOffset d) ++ "\n%%EOF"

/-- The complete PDF as a JavaScript string. -/
def pdfString (d : CertificateRequest) : String :=
  bodyString d ++ xrefSection d ++ trailerSection d

/-- Source `generateCertificatePDF`: the returned buffer,
`Buffer.from(pdf, 'utf-8')`, as its list of byte values. -/
def generateCertificatePDF (d : CertificateRequest) : List Nat :=
  utf8Bytes (pdfString d)

/-! ## The POST request handler (route.ts lines 238-292) -/

/-- ASCII alphanumeric test, the complement of the regex `[^a-zA-Z0-9]`. -/
def isAlnum (c : Char) : Bool :=
  ('A' ≤ c && c ≤ 'Z') || ('a' ≤ c && c ≤ 'z') || ('0' ≤ c && c ≤ '9')

/-- JavaScript `v || dflt` for an optional string field: an absent field
or an empty string falls back to the default. -/
def jsOr (v : Option String) (dflt : String) : String :=
  match v with
  | none => dflt
  | some s => if s = "" then dflt else s

/-- The standard base64 alphabet used by `Buffer.toString('base64')`. -/
def b64Chars : List Char :=
  "ABCDEFGHIJKLMNOPQRSTUVWXYZabcdefghijklmnopqrstuvwxyz0123456789+/".data

/-- Character of the base64 alphabet at a 6-bit index. -/
def b64Char (n : Nat) : Char := b64Chars.getD n 'A'

/-- Base64 encoding with padding, modelling `buffer.toString('base64')`. -/
def base64Encode : List Nat → String
  | [] => ""
  | [b] => String.mk [b64Char (b / 4), b64Char (b % 4 * 16)] ++ "=="
  | [b, c] => String.mk [b64Char (b / 4), b64Char (b % 4 * 16 + c / 16),
      b64Char (c % 16 * 4)] ++ "="
  | b :: c :: e :: rest =>
    String.mk [b64Char (b / 4), b64Char (b % 4 * 16 + c / 16),
      b64Char (c % 16 * 4 + e / 64), b64Char (e % 64)] ++ base64Encode rest

/-- One element of the request's `participants` array; each field may be
absent (models `undefined` as well as other falsy-by-absence cases). -/
structure ParticipantInput where
  name : Option String
  email : Option String
  course : Option String
  date : Option String
  certificate_id : Option String

/-- One entry of the response's `certificates` array. -/
structure CertOut where
  name : Option String
  email : Option String
  course : Option String
  date : Option String
  certificate_id : Option String
  pdf_base64 : String
  filename : String

/-- The JSON response together with its HTTP status
(`NextResponse.json(body, { status })`, default status 200). -/
structure PostResult where
  status : Nat
  success : Bool
  error : Option String
  total : Option Nat
  certificates : Option (List CertOut)

/-- The loop body of the handler for one participant.  `today` models
`new Date().toISOString().split('T')[0]` and `nowMs` models
`Date.now()`, both ambient inputs of the surrounding handler. -/
def handleParticipant (today : String) (nowMs : Nat)
    (p : ParticipantInput) : CertOut :=
  let pdfBuffer := generateCertificatePDF
    { name := jsOr p.name "Participant"
      course := jsOr p.course "Course"
      date := jsOr p.date today
      certificate_id := jsOr p.certificate_id ("CERT-" ++ toString nowMs) }
  let sanitizedName := String.mk
    ((jsOr p.name "certificate").data.map
      (fun c => if isAlnum c then c else '_'))
  { name := p.name, email := p.email, course := p.course, date := p.date,
    certificate_id := p.certificate_id,
    pdf_base64 := base64Encode pdfBuffer,
    filename := "Certificate_" ++ sanitizedName ++ ".pdf" }

/-- Source `POST` handler.  `body` is the result of `request.json()`
followed by reading `participants`: `Except.error msg` models a thrown
parse error with message `msg`, `Except.ok none` models a body whose
`participants` is missing or not an array, and `Except.ok (some ps)`
models a `participants` array. -/
def POST (body : Except String (Option (List ParticipantInput)))
    (today : String) (nowMs : Nat) : PostResult :=
  match body with
  | Except.error msg =>
    { status := 500, success := false, error := some msg,
      total := none, certificates := none }
  | Except.ok none =>
    { status := 400, success := false,
      error := some "participants array is required",
      total := none, certificates := none }
  | Except.ok (some ps) =>
    if ps.length = 0 then
      { status := 400, success := false,
        error := some "participants array is required",
        total := none, certificates := none }
    else
      { status := 200, success := true, error := none,
        total := some (ps.map (handleParticipant today nowMs)).length,
        certificates := some (ps.map (handleParticipant today nowMs)) }

/-! ## Lemmas about the byte model and the escaping -/

theorem utf8Bytes_append (a b : String) :
    utf8Bytes (a ++ b) = utf8Bytes a ++ utf8Bytes b := by
  simp [utf8Bytes, String.data_append, List.flatMap_append]

theorem byteLen_append (a b : String) :
    byteLen (a ++ b) = byteLen a + byteLen b := by
  simp [byteLen, utf8Bytes_append]

theorem byteLen_empty : byteLen "" = 0 := rfl

theorem escapeText_eq_flatMap (s : String) :
    escapeText s = String.mk (s.data.flatMap escChar) := by
  cases s with
  | mk l =>
    simp only [escapeText, replaceChar, List.flatMap_assoc]
    congr 1
    apply List.flatMap_congr
    intro a _
    by_cases h1 : a = '\\'
    · subst h1; rfl
    · by_cases h2 : a = '('
      · subst h2; rfl
      · by_cases h3 : a = ')'
        · subst h3; rfl
        · simp [escChar, h1, h2, h3]

theorem unescChars_esc (b : Char) (l : List Char) :
    unescChars ('\\' :: b :: l) = b :: unescChars l := by
  simp [unescChars]

theorem unescChars_cons (a : Char) (l : List Char) (h : ¬a = '\\') :
    unescChars (a :: l) = a :: unescChars l := by
  cases l with
  | nil => simp [unescChars, h]
  | cons b rest => simp [unescChars, h]

theorem unescChars_flatMap_escChar (l : List Char) :
    unescChars (l.flatMap escChar) = l := by
  induction l with
  | nil => rfl
  | cons a rest ih =>
    rw [show (a :: rest).flatMap escChar = escChar a ++ rest.flatMap escChar
      from List.flatMap_cons ..]
    by_cases h1 : a = '\\'
    · subst h1
      rw [show escChar '\\' = ['\\', '\\'] from rfl, List.cons_append,
        List.cons_append, List.nil_append, unescChars_esc, ih]
    · by_cases h2 : a = '('
      · subst h2
        rw [show escChar '(' = ['\\', '('] from rfl, List.cons_append,
          List.cons_append, List.nil_append, unescChars_esc, ih]
      · by_cases h3 : a = ')'
        · subst h3
          rw [show escChar ')' = ['\\', ')'] from rfl, List.cons_append,
            List.cons_append, List.nil_append, unescChars_esc, ih]
        · rw [show escChar a = [a] from by simp [escChar, h1, h2, h3],
            List.cons_append, List.nil_append, unescChars_cons a _ h1, ih]

theorem unescapeText_escapeText (s : String) :
    unescapeText (escapeText s) = s := by
  rw [escapeText_eq_flatMap]
  cases s with
  | mk l => exact congrArg String.mk (unescChars_flatMap_escChar l)

theorem escapeText_injective (s t : String)
    (h : escapeText s = escapeText t) : s = t := by
  have := congrArg unescapeText h
  rwa [unescapeText_escapeText, unescapeText_escapeText] at this

theorem fmtQ_four_mul (k : Int) : fmtQ (4 * k) = toString k := by
  cases k with
  | ofNat n =>
    have h1 : ¬ ((4 : Int) * Int.ofNat n < 0) := by
      simp only [Int.ofNat_eq_coe]; omega
    have h2 : ((4 : Int) * Int.ofNat n).natAbs = 4 * n := by
      simp only [Int.ofNat_eq_coe]; omega
    have h3 : 4 * n / 4 = n := by omega
    have h4 : 4 * n % 4 = 0 := by omega
    simp only [fmtQ, h1, if_false, h2, h3, h4]
    show "" ++ toString n ++ "" = toString (Int.ofNat n)
    rw [String.empty_append, String.append_empty]
    rfl
  | negSucc n =>
    have h0 : Int.negSucc n = -(n + 1 : Int) := Int.negSucc_eq n
    have h1 : ((4 : Int) * Int.negSucc n < 0) := by rw [h0]; omega
    have h2 : ((4 : Int) * Int.negSucc n).natAbs = 4 * (n + 1) := by
      rw [h0]; omega
    have h3 : 4 * (n + 1) / 4 = n + 1 := by omega
    have h4 : 4 * (n + 1) % 4 = 0 := by omega
    simp only [fmtQ, h1, if_true, h2, h3, h4]
    show "-" ++ toString (n + 1) ++ "" = toString (Int.negSucc n)
    rw [String.append_empty]
    rfl

/-! ## Helper lemmas about the assembly -/

theorem emitObjects_decomp (L : List String) (i : Nat) (h : i < L.length) :
    emitObjects L =
      emitObjects (L.take i)
        ++ ((L.getD i "" ++ "\n") ++ emitObjects (L.drop (i + 1))) := by
  induction L generalizing i with
  | nil => simp at h
  | cons o rest ih =>
    cases i with
    | zero =>
      simp only [List.take_zero, List.drop_succ_cons, List.drop_zero,
        List.getD_cons_zero, emitObjects]
      rw [String.empty_append]
    | succ j =>
      have hj : j < rest.length := by simpa using h
      simp only [List.take_succ_cons, List.drop_succ_cons,
        List.getD_cons_succ, emitObjects]
      rw [ih j hj]
      simp only [String.append_assoc]

theorem offsetsAux_length (acc : Nat) (L : List String) :
    (offsetsAux acc L).length = L.length := by
  induction L generalizing acc with
  | nil => rfl
  | cons o rest ih => simp [offsetsAux, ih]

theorem offsetsAux_getD (acc : Nat) (L : List String) (i : Nat)
    (h : i < L.length) :
    (offsetsAux acc L).getD i 0 = acc + byteLen (emitObjects (L.take i)) := by
  induction L generalizing acc i with
  | nil => simp at h
  | cons o rest ih =>
    cases i with
    | zero =>
      simp [offsetsAux, emitObjects, byteLen_empty]
    | succ j =>
      have hj : j < rest.length := by simpa using h
      simp only [offsetsAux, List.getD_cons_succ, List.take_succ_cons,
        emitObjects]
      rw [ih _ j hj]
      simp only [byteLen_append]
      omega

theorem objects_length (d : CertificateRequest) : (objects d).length = 7 := rfl

theorem offsets_length (d : CertificateRequest) : (offsets d).length = 7 := by
  rw [offsets, offsetsAux_length, objects_length]

theorem offsets_getD (d : CertificateRequest) (i : Nat) (h : i < 7) :
    (offsets d).getD i 0 =
      byteLen (header ++ emitObjects ((objects d).take i)) := by
  rw [offsets, offsetsAux_getD _ _ i (by rw [objects_length]; exact h),
    byteLen_append]

theorem pdf_decomp (d : CertificateRequest) (i : Nat) (h : i < 7) :
    generateCertificatePDF d =
      utf8Bytes (header ++ emitObjects ((objects d).take i)) ++
        (utf8Bytes ((objects d).getD i "" ++ "\n") ++
          utf8Bytes (emitObjects ((objects d).drop (i + 1))
            ++ xrefSection d ++ trailerSection d)) := by
  have hd := emitObjects_decomp (objects d) i (by rw [objects_length]; exact h)
  show utf8Bytes (pdfString d) = _
  rw [pdfString, bodyString, hd]
  simp only [utf8Bytes_append, List.append_assoc]

theorem objects_getD_label (d : CertificateRequest) (i : Nat) (h : i < 7) :
    ∃ t, (objects d).getD i "" = (toString (i + 1) ++ " 0 obj") ++ t := by
  interval_cases i
  · exact ⟨"\n<< /Type /Catalog /Pages 2 0 R >>\nendobj",
      by show obj1 = _; decide⟩
  · exact ⟨"\n<< /Type /Pages /Kids [3 0 R] /Count 1 >>\nendobj",
      by show obj2 = _; decide⟩
  · exact ⟨"\n<< /Type /Page /Parent 2 0 R /MediaBox [0 0 "
        ++ toString pageWidth ++ " " ++ toString pageHeight
        ++ "] /Contents 4 0 R /Resources << /Font << /F1 5 0 R /F2 6 0 R /F3 7 0 R >> >> >>\nendobj",
      by show obj3 = _; decide⟩
  · refine ⟨"\n<< /Length " ++ toString (byteLen (contentStream d))
        ++ " >>\nstream\n" ++ contentStream d ++ "\nendstream\nendobj", ?_⟩
    show obj4 d = _
    rw [obj4,
      show "4 0 obj\n<< /Length " = ("4" ++ " 0 obj") ++ "\n<< /Length "
        from by decide,
      show toString (3 + 1 : Nat) = "4" from by decide]
    simp only [String.append_assoc]
  · exact ⟨"\n<< /Type /Font /Subtype /Type1 /BaseFont /Helvetica /Encoding /WinAnsiEncoding >>\nendobj",
      by show obj5 = _; decide⟩
  · exact ⟨"\n<< /Type /Font /Subtype /Type1 /BaseFont /Helvetica-Bold /Encoding /WinAnsiEncoding >>\nendobj",
      by show obj6 = _; decide⟩
  · exact ⟨"\n<< /Type /Font /Subtype /Type1 /BaseFont /Courier /Encoding /WinAnsiEncoding >>\nendobj",
      by show obj7 = _; decide⟩

theorem pad10_length (n : Nat) (h : n < 10 ^ 10) : (pad10 n).length = 10 := by
  have hle : (toString n).length ≤ 10 := Nat.repr_length n 10 (by decide) h
  by_cases hlt : (toString n).length < 10
  · simp only [pad10, if_pos hlt, String.length_append]
    have hrep : (String.mk (List.replicate (10 - (toString n).length) '0')).length
        = 10 - (toString n).length := by
      show (List.replicate _ '0').length = _
      rw [List.length_replicate]
    rw [hrep]
    omega
  · simp only [pad10, if_neg hlt]
    omega

/-! ## Claim theorems -/

/-- Claim C1: for every `CertificateRequest` the cross-reference table has
exactly 7 in-use entries; the emission loop assigns object numbers 1..7
once each, in increasing emission order (object `i` is emitted starting
with the text `"<i> 0 obj"`); and for every object number the recorded
offset is the byte position, counted from the start of the buffer, at
which the byte sequence `"<i> 0 obj"` begins. -/
theorem xref_offsets_point_to_objects (d : CertificateRequest) :
    (offsets d).length = 7 ∧
    ∀ i : Nat, i < 7 →
      (∃ t, (objects d).getD i "" = (toString (i + 1) ++ " 0 obj") ++ t) ∧
      ∃ pre suf : List Nat,
        generateCertificatePDF d = pre ++ suf ∧
        pre.length = (offsets d).getD i 0 ∧
        ∃ r, suf = utf8Bytes (toString (i + 1) ++ " 0 obj") ++ r := by
  refine ⟨offsets_length d, fun i h => ⟨objects_getD_label d i h, ?_⟩⟩
  refine ⟨utf8Bytes (header ++ emitObjects ((objects d).take i)),
    utf8Bytes ((objects d).getD i "" ++ "\n") ++
      utf8Bytes (emitObjects ((objects d).drop (i + 1))
        ++ xrefSection d ++ trailerSection d),
    pdf_decomp d i h, ?_, ?_⟩
  · rw [offsets_getD d i h]
    rfl
  · obtain ⟨t, ht⟩ := objects_getD_label d i h
    rw [ht]
    refine ⟨utf8Bytes (t ++ "\n") ++
      utf8Bytes (emitObjects ((objects d).drop (i + 1))
        ++ xrefSection d ++ trailerSection d), ?_⟩
    rw [String.append_assoc, utf8Bytes_append, List.append_assoc]

/-- Claim C1 witness at a concrete request and object number 4. -/
theorem xref_offsets_point_to_objects_witness :
    (3 : Nat) < 7 ∧
    ∃ pre suf : List Nat,
      generateCertificatePDF
          ⟨"Alice Johnson", "Advanced React", "2025-01-15", "CERT-AJ-2025-001"⟩
        = pre ++ suf ∧
      pre.length =
        (offsets ⟨"Alice Johnson", "Advanced React", "2025-01-15",
          "CERT-AJ-2025-001"⟩).getD 3 0 ∧
      ∃ r, suf = utf8Bytes (toString (3 + 1) ++ " 0 obj") ++ r :=
  ⟨by decide,
    ((xref_offsets_point_to_objects
      ⟨"Alice Johnson", "Advanced React", "2025-01-15",
        "CERT-AJ-2025-001"⟩).2 3 (by decide)).2⟩

/-- Claim C2: for every request the `/Length` value written in the
content-stream dictionary is the decimal rendering of the exact UTF-8
byte count of the stream payload lying between `stream\n` and
`\nendstream` in the output buffer. -/
theorem stream_length_exact (d : CertificateRequest) :
    ∃ pre payload suf : List Nat,
      generateCertificatePDF d =
        pre ++ utf8Bytes ("<< /Length " ++ toString payload.length
          ++ " >>\nstream\n") ++ payload ++ utf8Bytes "\nendstream" ++ suf ∧
      payload = utf8Bytes (contentStream d) := by
  refine ⟨utf8Bytes (header ++ emitObjects ((objects d).take 3))
      ++ utf8Bytes "4 0 obj\n",
    utf8Bytes (contentStream d),
    utf8Bytes "\nendobj" ++ utf8Bytes "\n"
      ++ utf8Bytes (emitObjects ((objects d).drop (3 + 1))
        ++ xrefSection d ++ trailerSection d),
    ?_, rfl⟩
  have h3 := pdf_decomp d 3 (by decide)
  rw [show (objects d).getD 3 "" = obj4 d from rfl] at h3
  rw [h3, obj4,
    show "4 0 obj\n<< /Length " = "4 0 obj\n" ++ "<< /Length " from by decide,
    show "\nendstream\nendobj" = "\nendstream" ++ "\nendobj" from by decide]
  simp only [byteLen, utf8Bytes_append, List.append_assoc]

/-- Claim C3: the buffer starts with `%PDF-1.4\n`; after the objects it
carries the xref keyword, the `0 8` line, the fixed free entry, one line
per object built from the 10-digit zero-padded offset followed by
`" 00000 n "` and a newline, the trailer with `/Size 8` and
`/Root 1 0 R`, `startxref` with the byte offset of the xref section, and
a final `%%EOF` with nothing after it. -/
theorem pdf_layout_header_xref_trailer (d : CertificateRequest) :
    (∃ r, generateCertificatePDF d = utf8Bytes "%PDF-1.4\n" ++ r) ∧
    generateCertificatePDF d =
      utf8Bytes (bodyString d
        ++ ("xref\n0 8\n0000000000 65535 f \n"
          ++ (xrefEntries (offsets d)
            ++ ("trailer\n<< /Size 8 /Root 1 0 R >>\nstartxref\n"
              ++ (toString (byteLen (bodyString d)) ++ "\n%%EOF"))))) ∧
    (∀ o rest, xrefEntries (o :: rest)
      = (pad10 o ++ " 00000 n \n") ++ xrefEntries rest) ∧
    ∀ o : Nat, o < 10 ^ 10 →
      (pad10 o).length = 10 ∧ (pad10 o ++ " 00000 n \n").length = 20 := by
  refine ⟨⟨utf8Bytes (emitObjects (objects d))
      ++ utf8Bytes (xrefSection d) ++ utf8Bytes (trailerSection d), ?_⟩,
    ?_, fun o rest => rfl, fun o ho => ?_⟩
  · show utf8Bytes (pdfString d) = _
    rw [pdfString, bodyString, header]
    simp only [utf8Bytes_append, List.append_assoc]
  · show utf8Bytes (pdfString d) = _
    rw [show "xref\n0 8\n0000000000 65535 f \n"
        = "xref\n0 " ++ toString (8 : Nat) ++ "\n0000000000 65535 f \n"
      from by decide,
      show "trailer\n<< /Size 8 /Root 1 0 R >>\nstartxref\n"
        = "trailer\n<< /Size " ++ toString (8 : Nat)
          ++ " /Root 1 0 R >>\nstartxref\n" from by decide]
    simp only [pdfString, xrefSection, trailerSection, xrefOffset, objNum,
      utf8Bytes_append, List.append_assoc]
  · have h10 := pad10_length o ho
    refine ⟨h10, ?_⟩
    rw [String.length_append, h10]
    rfl

/-- Claim C3 witness: the padded-entry lengths at the offsets the sample
request actually records. -/
theorem pdf_layout_header_xref_trailer_witness :
    (9 : Nat) < 10 ^ 10 ∧
    (pad10 9).length = 10 ∧ (pad10 9 ++ " 00000 n \n").length = 20 :=
  ⟨by decide,
    (pdf_layout_header_xref_trailer
      ⟨"Alice Johnson", "Advanced React", "2025-01-15",
        "CERT-AJ-2025-001"⟩).2.2.2 9 (by decide)⟩

/-- Claim C4: the escaping is applied to every input field placed inside
a PDF string literal; reversing it recovers the input exactly (so it is
injective); and the example course renders as `(Intro \(Basics\))`. -/
theorem escaping_applied_and_reversible :
    (∀ s, unescapeText (escapeText s) = s) ∧
    (∀ s t, escapeText s = escapeText t → s = t) ∧
    escapeText "Intro (Basics)" = "Intro \\(Basics\\)" ∧
    ∀ d : CertificateRequest,
      ("(" ++ escapeText d.name ++ ") Tj") ∈ contentLines d ∧
      ("(" ++ escapeText d.course ++ ") Tj") ∈ contentLines d ∧
      ("(" ++ escapeText (dateLabel d.date) ++ ") Tj") ∈ contentLines d ∧
      ("(" ++ escapeText (idLabel d.certificate_id) ++ ") Tj")
        ∈ contentLines d := by
  refine ⟨unescapeText_escapeText, escapeText_injective, by decide, ?_⟩
  rintro ⟨name, course, date, cid⟩
  refine ⟨?_, ?_, ?_, ?_⟩ <;> simp [contentLines]

/-- Claim C4 witness: reversing the escaping on the concrete escaped
course string recovers the original. -/
theorem escaping_applied_and_reversible_witness :
    unescapeText "Intro \\(Basics\\)" = "Intro (Basics)" := by
  have h := escaping_applied_and_reversible
  rw [← h.2.2.1]
  exact h.1 "Intro (Basics)"

/-- Claim C5: the encoder is deterministic — it is a pure function of
the four string fields; two requests with equal fields give byte-equal
buffers. -/
theorem generateCertificatePDF_deterministic (d1 d2 : CertificateRequest)
    (hn : d1.name = d2.name) (hc : d1.course = d2.course)
    (hd : d1.date = d2.date) (hi : d1.certificate_id = d2.certificate_id) :
    generateCertificatePDF d1 = generateCertificatePDF d2 := by
  obtain ⟨a1, b1, c1, e1⟩ := d1
  obtain ⟨a2, b2, c2, e2⟩ := d2
  rw [show a1 = a2 from hn, show b1 = b2 from hc, show c1 = c2 from hd,
    show e1 = e2 from hi]

/-- Claim C5 witness: two calls on identical concrete field values. -/
theorem generateCertificatePDF_deterministic_witness :
    generateCertificatePDF
        ⟨"Alice Johnson", "Advanced React", "2025-01-15", "CERT-AJ-2025-001"⟩
      = generateCertificatePDF
        ⟨"Alice Johnson", "Advanced React", "2025-01-15", "CERT-AJ-2025-001"⟩ :=
  generateCertificatePDF_deterministic _ _ rfl rfl rfl rfl

/-- Claim C6: the encoder is total on its input domain: it is modelled
as a total function with no error value, and for every request —
including empty or arbitrarily long fields — it yields a non-empty byte
buffer beginning with the PDF header. -/
theorem generateCertificatePDF_total (d : CertificateRequest) :
    ∃ bytes : List Nat, generateCertificatePDF d = bytes ∧
      (∃ r, bytes = utf8Bytes "%PDF-1.4\n" ++ r) ∧ bytes.length ≠ 0 := by
  have hpre : ∃ r, generateCertificatePDF d = utf8Bytes "%PDF-1.4\n" ++ r := by
    refine ⟨utf8Bytes (emitObjects (objects d)) ++ utf8Bytes (xrefSection d)
      ++ utf8Bytes (trailerSection d), ?_⟩
    show utf8Bytes (pdfString d) = _
    rw [pdfString, bodyString, header]
    simp only [utf8Bytes_append, List.append_assoc]
  obtain ⟨r, hr⟩ := hpre
  refine ⟨generateCertificatePDF d, rfl, ⟨r, hr⟩, ?_⟩
  rw [hr, List.length_append]
  have h9 : (utf8Bytes "%PDF-1.4\n").length = 9 := by decide
  omega

/-- Claim C7: the participant-name block of the content stream is the
six consecutive operators `BT`, `/F2 28 Tf`, `0.1 0.1 0.1 rg`, a `Td`
at x = 396 - (14 * length(name)) / 2 and y = 410, the escaped name in a
string literal followed by `Tj`, and `ET`. -/
theorem name_text_block (d : CertificateRequest) :
    ((contentLines d).drop 37).take 6 =
      ["BT", "/F2 28 Tf", "0.1 0.1 0.1 rg",
        toString ((396 : Int) - 14 * (d.name.length : Int) / 2) ++ " 410 Td",
        "(" ++ escapeText d.name ++ ") Tj", "ET"] := by
  obtain ⟨name, course, date, cid⟩ := d
  have hTd : centerTd name.length 56 410
      = toString ((396 : Int) - 14 * (name.length : Int) / 2)
          ++ " 410 Td" := by
    rw [centerTd]
    have h1 : 4 * (centerX : Int) - (name.length : Int) * ((56 : Nat) : Int) / 2
        = 4 * ((396 : Int) - 14 * (name.length : Int) / 2) := by
      rw [show (centerX : Int) = 396 from rfl]
      push_cast
      omega
    rw [h1, fmtQ_four_mul]
    simp only [String.append_assoc]
    rw [show (" " ++ (toString (410 : Nat) ++ " Td")) = " 410 Td"
      from by decide]
  have hlist : ((contentLines ⟨name, course, date, cid⟩).drop 37).take 6
      = ["BT", "/F2 28 Tf", "0.1 0.1 0.1 rg",
          centerTd name.length 56 410,
          "(" ++ escapeText name ++ ") Tj", "ET"] := rfl
  rw [hlist, hTd]

/-- Claim C8: a body without a participants array is rejected with
status 400 and `success: false`; an exception thrown while reading the
body is caught generically and surfaced with status 500 and
`success: false`; a success response has one certificate entry per
participant; and every response falls in exactly these classes. -/
theorem POST_classification
    (body : Except String (Option (List ParticipantInput)))
    (today : String) (nowMs : Nat) :
    (∀ msg, body = Except.error msg →
      (POST body today nowMs).status = 500 ∧
      (POST body today nowMs).success = false) ∧
    (body = Except.ok none →
      (POST body today nowMs).status = 400 ∧
      (POST body today nowMs).success = false ∧
      (POST body today nowMs).error = some "participants array is required") ∧
    (∀ ps, body = Except.ok (some ps) → ps ≠ [] →
      (POST body today nowMs).status = 200 ∧
      (POST body today nowMs).success = true ∧
      ∃ cs, (POST body today nowMs).certificates = some cs ∧
        cs.length = ps.length ∧
        (POST body today nowMs).total = some ps.length) ∧
    ((POST body today nowMs).success = true ∨
      (POST body today nowMs).status = 400 ∨
      (POST body today nowMs).status = 500) := by
  refine ⟨?_, ?_, ?_, ?_⟩
  · rintro msg rfl
    exact ⟨rfl, rfl⟩
  · rintro rfl
    exact ⟨rfl, rfl, rfl⟩
  · rintro ps rfl hne
    have hl : ¬ ps.length = 0 := by simpa using hne
    refine ⟨?_, ?_, ps.map (handleParticipant today nowMs), ?_, ?_, ?_⟩ <;>
      simp [POST, hl]
  · match body with
    | Except.error msg => exact Or.inr (Or.inr rfl)
    | Except.ok none => exact Or.inr (Or.inl rfl)
    | Except.ok (some ps) =>
      by_cases h : ps.length = 0
      · exact Or.inr (Or.inl (by simp [POST, h]))
      · exact Or.inl (by simp [POST, h])

/-- Claim C8 witness: a one-participant batch yields a success response
with exactly one certificate entry. -/
theorem POST_classification_witness :
    (POST (Except.ok (some [⟨some "Alice Johnson", some "alice@example.com",
        some "Advanced React", some "2025-01-15", some "CERT-AJ-2025-001"⟩]))
      "2025-01-15" 0).status = 200 ∧
    (POST (Except.ok (some [⟨some "Alice Johnson", some "alice@example.com",
        some "Advanced React", some "2025-01-15", some "CERT-AJ-2025-001"⟩]))
      "2025-01-15" 0).success = true ∧
    ∃ cs, (POST (Except.ok (some [⟨some "Alice Johnson",
        some "alice@example.com", some "Advanced React", some "2025-01-15",
        some "CERT-AJ-2025-001"⟩])) "2025-01-15" 0).certificates = some cs ∧
      cs.length = 1 ∧
      (POST (Except.ok (some [⟨some "Alice Johnson", some "alice@example.com",
          some "Advanced React", some "2025-01-15", some "CERT-AJ-2025-001"⟩]))
        "2025-01-15" 0).total = some 1 :=
  (POST_classification _ "2025-01-15" 0).2.2.1 _ rfl
    (List.cons_ne_nil _ _)

/-- Claim C9: in a successful batch response, the filename returned for
a participant with a non-empty name is `Certificate_` followed by the
name with every non-alphanumeric character replaced by an underscore
(and the `.pdf` extension). -/
theorem POST_filename (today : String) (nowMs : Nat)
    (ps : List ParticipantInput) (i : Nat) (p : ParticipantInput)
    (n : String) (hp : ps[i]? = some p) (hn : p.name = some n)
    (hne : ¬ n = "") :
    ∃ cs c,
      (POST (Except.ok (some ps)) today nowMs).certificates = some cs ∧
      cs[i]? = some c ∧
      c.filename = "Certificate_"
        ++ String.mk (n.data.map (fun ch => if isAlnum ch then ch else '_'))
        ++ ".pdf" := by
  have hne0 : ¬ ps.length = 0 := by
    intro h0
    rw [List.length_eq_zero] at h0
    subst h0
    simp at hp
  refine ⟨ps.map (handleParticipant today nowMs),
    handleParticipant today nowMs p, ?_, ?_, ?_⟩
  · simp only [POST, if_neg hne0]
  · simp [List.getElem?_map, hp]
  · simp only [handleParticipant, hn, jsOr, if_neg hne]

/-- Claim C9 witness: the concrete participant name `Alice Johnson`
yields the filename with its space replaced by an underscore. -/
theorem POST_filename_witness :
    (∃ cs c,
      (POST (Except.ok (some [⟨some "Alice Johnson", some "alice@example.com",
          some "Advanced React", some "2025-01-15", some "CERT-AJ-2025-001"⟩]))
        "2025-01-15" 0).certificates = some cs ∧
      cs[0]? = some c ∧
      c.filename = "Certificate_"
        ++ String.mk ("Alice Johnson".data.map
            (fun ch => if isAlnum ch then ch else '_'))
        ++ ".pdf") ∧
    "Certificate_"
        ++ String.mk ("Alice Johnson".data.map
            (fun ch => if isAlnum ch then ch else '_'))
        ++ ".pdf" = "Certificate_Alice_Johnson.pdf" :=
  ⟨POST_filename "2025-01-15" 0 _ 0 _ "Alice Johnson" rfl rfl (by decide),
    by decide⟩

/-- Claim C10: the final buffer is the UTF-8 encoding of the assembled
text, and every recorded object offset, the startxref value and the
`/Length` value are UTF-8 byte lengths of the text written so far, so
the offset-pointing property holds for arbitrary (including multi-byte)
input. -/
theorem offsets_utf8_byte_based (d : CertificateRequest) :
    generateCertificatePDF d = utf8Bytes (pdfString d) ∧
    xrefOffset d = (utf8Bytes (bodyString d)).length ∧
    (∃ t, obj4 d = "4 0 obj\n<< /Length "
      ++ toString ((utf8Bytes (contentStream d)).length) ++ t) ∧
    ∀ i : Nat, i < 7 →
      (offsets d).getD i 0 =
        (utf8Bytes (header ++ emitObjects ((objects d).take i))).length ∧
      ∃ pre suf : List Nat,
        generateCertificatePDF d = pre ++ suf ∧
        pre.length = (offsets d).getD i 0 ∧
        ∃ r, suf = utf8Bytes (toString (i + 1) ++ " 0 obj") ++ r := by
  refine ⟨rfl, rfl,
    ⟨" >>\nstream\n" ++ contentStream d ++ "\nendstream\nendobj", ?_⟩, ?_⟩
  · rw [obj4]
    simp only [byteLen, String.append_assoc]
  · intro i h
    refine ⟨offsets_getD d i h, ?_⟩
    refine ⟨utf8Bytes (header ++ emitObjects ((objects d).take i)),
      utf8Bytes ((objects d).getD i "" ++ "\n") ++
        utf8Bytes (emitObjects ((objects d).drop (i + 1))
          ++ xrefSection d ++ trailerSection d),
      pdf_decomp d i h, ?_, ?_⟩
    · rw [offsets_getD d i h]
      rfl
    · obtain ⟨t, ht⟩ := objects_getD_label d i h
      rw [ht]
      refine ⟨utf8Bytes (t ++ "\n") ++
        utf8Bytes (emitObjects ((objects d).drop (i + 1))
          ++ xrefSection d ++ trailerSection d), ?_⟩
      rw [String.append_assoc, utf8Bytes_append, List.append_assoc]

/-- Claim C10 witness at a request whose fields contain multi-byte
(non-ASCII) characters, at object number 1. -/
theorem offsets_utf8_byte_based_witness :
    (offsets ⟨"Ünïcode Nämé", "Café (Basics)", "2025-01-15", "ID-1"⟩).getD 0 0
      = (utf8Bytes (header ++ emitObjects
          ((objects ⟨"Ünïcode Nämé", "Café (Basics)", "2025-01-15",
            "ID-1"⟩).take 0))).length ∧
    ∃ pre suf : List Nat,
      generateCertificatePDF
          ⟨"Ünïcode Nämé", "Café (Basics)", "2025-01-15", "ID-1"⟩
        = pre ++ suf ∧
      pre.length = (offsets ⟨"Ünïcode Nämé", "Café (Basics)", "2025-01-15",
        "ID-1"⟩).getD 0 0 ∧
      ∃ r, suf = utf8Bytes (toString (0 + 1) ++ " 0 obj") ++ r :=
  (offsets_utf8_byte_based
    ⟨"Ünïcode Nämé", "Café (Basics)", "2025-01-15", "ID-1"⟩).2.2.2 0
    (by decide)

end CertBot
